import Mathlib

/-!
Desired-state synthesis of the Grafana deployment.

A shallow embedding of `pkg/controller/model/grafanaDeployment.go` and
`pkg/controller/model/constants.go`.

Conventions of the embedding:

* Go structs are Lean structures with the Go field names; a pointer field is an
  `Option`; a slice is a `List` (a nil slice and an empty slice are both `[]`).
* A Go `map[string]T` is a finite map (`Finmap`), so that Lean equality is Go
  deep equality; a map that may be nil is an `Option` of one.
* `int`, `int32` are `Int`; the one narrowing conversion is written `int32`.
* A Go field called `Type` is written `Type_`.
* The Instance is passed by pointer and two functions write into maps it owns.
  Those functions, and their callers, return the Instance as they leave it next
  to their result.
-/

set_option linter.dupNamespace false

namespace Model

/-! ## constants.go -/

def GrafanaServiceAccountName : String := "grafana-serviceaccount"
def GrafanaServiceName : String := "grafana-service"
def GrafanaConfigName : String := "grafana-config"
def GrafanaConfigFileName : String := "grafana.ini"
def GrafanaIngressName : String := "grafana-ingress"
def GrafanaRouteName : String := "grafana-route"
def GrafanaDeploymentName : String := "grafana-deployment"
def GrafanaPluginsVolumeName : String := "grafana-plugins"
def GrafanaInitContainerName : String := "grafana-plugins-init"
def GrafanaLogsVolumeName : String := "grafana-logs"
def GrafanaDataVolumeName : String := "grafana-data"
def GrafanaHealthEndpoint : String := "/api/health"
def GrafanaPodLabel : String := "grafana"
def LastConfigAnnotation : String := "last-config"
def LastConfigEnvVar : String := "LAST_CONFIG"
def GrafanaAdminSecretName : String := "admin-credentials"
def DefaultAdminUser : String := "admin"
def GrafanaAdminUserEnvVar : String := "GF_SECURITY_ADMIN_USER"
def GrafanaAdminPasswordEnvVar : String := "GF_SECURITY_ADMIN_PASSWORD"
def GrafanaHttpPort : Int := 3000

/-! ## grafanaDeployment.go: constants -/

def MemoryRequest : String := "256Mi"
def CpuRequest : String := "100m"
def MemoryLimit : String := "1024Mi"
def CpuLimit : String := "500m"

/-! ## Library types (k8s.io/api, k8s.io/apimachinery), as far as the code uses them -/

/-- A Go `map[string]string`. -/
abbrev StrMap := Finmap (fun _ : String => String)

/-- The type `resource.Quantity`, identified with the text it was parsed from. -/
structure Quantity where
  text : String
deriving DecidableEq

/-- The function `resource.MustParse`. -/
def MustParse (s : String) : Quantity := ⟨s⟩

/-- The type `v1.ResourceList`, a `map[ResourceName]Quantity`. -/
abbrev ResourceList := Finmap (fun _ : String => Quantity)

def ResourceMemory : String := "memory"
def ResourceCPU : String := "cpu"

structure ResourceRequirements where
  Limits : Option ResourceList
  Requests : Option ResourceList
deriving DecidableEq

/-- The conversion `int32(x)` of a Go `int`: two's complement wrap-around. -/
def int32 (x : Int) : Int := (x + 2147483648) % 4294967296 - 2147483648

inductive IntOrStringType where
  | Int
  | String
deriving DecidableEq

structure IntOrString where
  Type_ : IntOrStringType
  IntVal : Int
  StrVal : String
deriving DecidableEq

/-- The function `intstr.FromInt`. -/
def FromInt (val : Int) : IntOrString :=
  { Type_ := IntOrStringType.Int, IntVal := int32 val, StrVal := "" }

/-- The function `intstr.FromString`; a percentage is written this way, as in
`intstr.FromString("25%")`. -/
def FromString (val : String) : IntOrString :=
  { Type_ := IntOrStringType.String, IntVal := 0, StrVal := val }

structure LocalObjectReference where
  Name : String
deriving DecidableEq

structure ConfigMapVolumeSource where
  LocalObjectReference : LocalObjectReference
  Optional : Option Bool
deriving DecidableEq

structure SecretVolumeSource where
  SecretName : String
  Optional : Option Bool
deriving DecidableEq

structure EmptyDirVolumeSource where
  Medium : String
deriving DecidableEq

structure VolumeSource where
  EmptyDir : Option EmptyDirVolumeSource
  Secret : Option SecretVolumeSource
  ConfigMap : Option ConfigMapVolumeSource
deriving DecidableEq

structure Volume where
  Name : String
  VolumeSource : VolumeSource
deriving DecidableEq

structure VolumeMount where
  Name : String
  ReadOnly : Bool
  MountPath : String
deriving DecidableEq

structure HTTPGetAction where
  Path : String
  Port : IntOrString
deriving DecidableEq

structure Handler where
  HTTPGet : Option HTTPGetAction
deriving DecidableEq

structure Probe where
  Handler : Handler
  InitialDelaySeconds : Int
  TimeoutSeconds : Int
  PeriodSeconds : Int
  SuccessThreshold : Int
  FailureThreshold : Int
deriving DecidableEq

structure SecretKeySelector where
  LocalObjectReference : LocalObjectReference
  Key : String
deriving DecidableEq

structure EnvVarSource where
  SecretKeyRef : Option SecretKeySelector
deriving DecidableEq

structure EnvVar where
  Name : String
  Value : String
  ValueFrom : Option EnvVarSource
deriving DecidableEq

structure ContainerPort where
  Name : String
  ContainerPort : Int
  Protocol : String
deriving DecidableEq

structure Container where
  Name : String
  Image : String
  Command : List String
  Args : List String
  WorkingDir : String
  Ports : List ContainerPort
  Env : List EnvVar
  Resources : ResourceRequirements
  VolumeMounts : List VolumeMount
  LivenessProbe : Option Probe
  ReadinessProbe : Option Probe
  TerminationMessagePath : String
  TerminationMessagePolicy : String
  ImagePullPolicy : String
deriving DecidableEq

structure ObjectMeta where
  Name : String
  Namespace : String
  UID : String
  ResourceVersion : String
  Generation : Int
  Labels : Option StrMap
  Annotations : Option StrMap
deriving DecidableEq

structure TypeMeta where
  Kind : String
  APIVersion : String
deriving DecidableEq

structure LabelSelector where
  MatchLabels : Option StrMap
deriving DecidableEq

structure PodSpec where
  Volumes : List Volume
  InitContainers : List Container
  Containers : List Container
  ServiceAccountName : String
deriving DecidableEq

structure PodTemplateSpec where
  ObjectMeta : ObjectMeta
  Spec : PodSpec
deriving DecidableEq

structure RollingUpdateDeployment where
  MaxUnavailable : Option IntOrString
  MaxSurge : Option IntOrString
deriving DecidableEq

structure DeploymentStrategy where
  Type_ : String
  RollingUpdate : Option RollingUpdateDeployment
deriving DecidableEq

structure DeploymentSpec where
  Replicas : Option Int
  Selector : Option LabelSelector
  Template : PodTemplateSpec
  Strategy : DeploymentStrategy
deriving DecidableEq

structure DeploymentStatus where
  ObservedGeneration : Int
  Replicas : Int
  UpdatedReplicas : Int
  ReadyReplicas : Int
  AvailableReplicas : Int
  UnavailableReplicas : Int
deriving DecidableEq

structure Deployment where
  TypeMeta : TypeMeta
  ObjectMeta : ObjectMeta
  Spec : DeploymentSpec
  Status : DeploymentStatus
deriving DecidableEq

/-- The type `client.ObjectKey`. -/
structure ObjectKey where
  Namespace : String
  Name : String
deriving DecidableEq

/-- The zero value of `v1.ResourceRequirements`. -/
def ResourceRequirements.zero : ResourceRequirements := { Limits := none, Requests := none }

/-- The zero value of `v1.ObjectMeta`. -/
def ObjectMeta.zero : ObjectMeta :=
  { Name := "", Namespace := "", UID := "", ResourceVersion := "", Generation := 0,
    Labels := none, Annotations := none }

/-- The zero value of `v1.TypeMeta`. -/
def TypeMeta.zero : TypeMeta := { Kind := "", APIVersion := "" }

/-- The zero value of `v1.DeploymentStatus`. -/
def DeploymentStatus.zero : DeploymentStatus :=
  { ObservedGeneration := 0, Replicas := 0, UpdatedReplicas := 0, ReadyReplicas := 0,
    AvailableReplicas := 0, UnavailableReplicas := 0 }

/-- The zero value of `v1.VolumeSource`. -/
def VolumeSource.zero : VolumeSource := { EmptyDir := none, Secret := none, ConfigMap := none }

/-- The zero value of `v1.EmptyDirVolumeSource`. -/
def EmptyDirVolumeSource.zero : EmptyDirVolumeSource := { Medium := "" }

/-- The zero value of `v1.Container`. -/
def Container.zero : Container :=
  { Name := "", Image := "", Command := [], Args := [], WorkingDir := "", Ports := [], Env := [],
    Resources := ResourceRequirements.zero, VolumeMounts := [], LivenessProbe := none,
    ReadinessProbe := none, TerminationMessagePath := "", TerminationMessagePolicy := "",
    ImagePullPolicy := "" }

/-- A label selector with only `MatchLabels` selects a label set when every pair it lists is in
the set. A selector with nil `MatchLabels` lists no pair. -/
def LabelSelector.Matches (sel : LabelSelector) (labels : StrMap) : Prop :=
  match sel.MatchLabels with
  | some ml => ∀ k ∈ ml.keys, labels.lookup k = ml.lookup k
  | none => True

/-! ## The Instance (package v1alpha1) and the controller configuration (package config) -/

namespace v1alpha1

/-- Modelled from the spec: the Instance's configuration overrides. The declaration of
`v1alpha1.GrafanaConfig` is outside the given sources; the spec speaks of "a configurable service
port" with a "container port default", so the one thing kept of the configuration is the service
port it configures, if any. -/
structure GrafanaConfig where
  HttpPort : Option Int
deriving DecidableEq

/-- The deployment overlay `v1alpha1.GrafanaDeployment`, with the fields the code reads. -/
structure GrafanaDeployment where
  Annotations : Option StrMap
  Labels : Option StrMap
  Replicas : Int
deriving DecidableEq

/-- The type `v1alpha1.GrafanaSpec`, with the fields the code reads. -/
structure GrafanaSpec where
  Config : GrafanaConfig
  Containers : List Container
  Secrets : List String
  ConfigMaps : List String
  Deployment : Option GrafanaDeployment
  Resources : Option ResourceRequirements
deriving DecidableEq

/-- The Instance `v1alpha1.Grafana`. -/
structure Grafana where
  Name : String
  Namespace : String
  Spec : GrafanaSpec
deriving DecidableEq

end v1alpha1

open v1alpha1 (Grafana)

/-- Modelled from the spec: `GetGrafanaPort` is outside the given sources. The spec calls its
result the resolved service port: the port configured on the Instance, and the container port
default `GrafanaHttpPort` when none is configured. -/
def GetGrafanaPort (cr : Grafana) : Int :=
  match cr.Spec.Config.HttpPort with
  | some port => port
  | none => GrafanaHttpPort

/-- Modelled from the spec: the process-wide configuration store of package config, which is
outside the given sources: "a key→string lookup with fallback". -/
structure ControllerConfig where
  Values : StrMap
deriving DecidableEq

/-- Modelled from the spec: `GetConfigString(key, fallback)` of the configuration store, "a simple
key/default lookup". -/
def ControllerConfig.GetConfigString (cfg : ControllerConfig) (key fallback : String) : String :=
  match cfg.Values.lookup key with
  | some value => value
  | none => fallback

/-- The constants of package config that the code names; their values are outside the given
sources, so they are carried as data, together with the store that `GetControllerConfig` returns. -/
structure Config where
  ConfigGrafanaImage : String
  ConfigGrafanaImageTag : String
  ConfigPluginsInitContainerImage : String
  ConfigPluginsInitContainerTag : String
  GrafanaImage : String
  GrafanaVersion : String
  PluginsInitContainerImage : String
  PluginsInitContainerTag : String
  SecretsMountDir : String
  ConfigMapsMountDir : String
  GetControllerConfig : ControllerConfig
deriving DecidableEq

/-! ## grafanaDeployment.go -/

def getResources (cr : Grafana) : ResourceRequirements :=
  match cr.Spec.Resources with
  | some resources => resources
  | none =>
    { Requests := some (((∅ : ResourceList).insert ResourceMemory (MustParse MemoryRequest)).insert
        ResourceCPU (MustParse CpuRequest)),
      Limits := some (((∅ : ResourceList).insert ResourceMemory (MustParse MemoryLimit)).insert
        ResourceCPU (MustParse CpuLimit)) }

def getReplicas (cr : Grafana) : Option Int :=
  let replicas : Int := 1
  match cr.Spec.Deployment with
  | none => some replicas
  | some deployment =>
    if deployment.Replicas ≤ 0 then some replicas else some deployment.Replicas

def getRollingUpdateStrategy : Option RollingUpdateDeployment :=
  let maxUnaval : IntOrString := FromInt 25
  let maxSurge : IntOrString := FromInt 25
  some { MaxUnavailable := some maxUnaval, MaxSurge := some maxSurge }

/-- The assignment `cr.Spec.Deployment.Annotations[key] = value`, on an Instance whose overlay
annotation map is not nil (elsewhere it writes nothing). -/
def v1alpha1.Grafana.setAnnotation (cr : Grafana) (key value : String) : Grafana :=
  { cr with Spec := { cr.Spec with Deployment := cr.Spec.Deployment.map fun deployment =>
      { deployment with Annotations := deployment.Annotations.map fun m => m.insert key value } } }

/-- The assignment `cr.Spec.Deployment.Labels[key] = value`, on an Instance whose overlay label
map is not nil (elsewhere it writes nothing). -/
def v1alpha1.Grafana.setLabel (cr : Grafana) (key value : String) : Grafana :=
  { cr with Spec := { cr.Spec with Deployment := cr.Spec.Deployment.map fun deployment =>
      { deployment with Labels := deployment.Labels.map fun m => m.insert key value } } }

/-- The overlay annotation map when `cr.Spec.Deployment != nil` and it is not nil. -/
def v1alpha1.Grafana.overlayAnnotations (cr : Grafana) : Option StrMap :=
  match cr.Spec.Deployment with
  | some deployment => deployment.Annotations
  | none => none

/-- The overlay label map when `cr.Spec.Deployment != nil` and it is not nil. -/
def v1alpha1.Grafana.overlayLabels (cr : Grafana) : Option StrMap :=
  match cr.Spec.Deployment with
  | some deployment => deployment.Labels
  | none => none

/-- Returns the annotation map and the Instance as the call leaves it. When the overlay carries a
map, `annotations` is that very map, and each assignment is a write into the Instance. -/
def getPodAnnotations (cr : Grafana) : StrMap × Grafana :=
  match cr.overlayAnnotations with
  | none =>
    let annotations : StrMap := ∅
    let annotations := annotations.insert "prometheus.io/scrape" "true"
    let annotations := annotations.insert "prometheus.io/port" (toString (GetGrafanaPort cr))
    (annotations, cr)
  | some annotations =>
    let annotations := annotations.insert "prometheus.io/scrape" "true"
    let cr := cr.setAnnotation "prometheus.io/scrape" "true"
    let port := toString (GetGrafanaPort cr)
    let annotations := annotations.insert "prometheus.io/port" port
    let cr := cr.setAnnotation "prometheus.io/port" port
    (annotations, cr)

/-- Returns the label map and the Instance as the call leaves it. When the overlay carries a map,
`labels` is that very map, and the assignment is a write into the Instance. -/
def getPodLabels (cr : Grafana) : StrMap × Grafana :=
  match cr.overlayLabels with
  | none =>
    let labels : StrMap := ∅
    let labels := labels.insert "app" GrafanaPodLabel
    (labels, cr)
  | some labels =>
    let labels := labels.insert "app" GrafanaPodLabel
    let cr := cr.setLabel "app" GrafanaPodLabel
    (labels, cr)

def getVolumes (cr : Grafana) : List Volume :=
  let volumes : List Volume := []
  let volumeOptional : Bool := true
  -- Volume to mount the config file from a config map
  let volumes := volumes ++ [{
    Name := GrafanaConfigName,
    VolumeSource := { VolumeSource.zero with
      ConfigMap := some {
        LocalObjectReference := { Name := GrafanaConfigName },
        Optional := none } } }]
  -- Volume to store the logs
  let volumes := volumes ++ [{
    Name := GrafanaLogsVolumeName,
    VolumeSource := { VolumeSource.zero with EmptyDir := some EmptyDirVolumeSource.zero } }]
  -- Data volume
  let volumes := volumes ++ [{
    Name := GrafanaDataVolumeName,
    VolumeSource := { VolumeSource.zero with EmptyDir := some EmptyDirVolumeSource.zero } }]
  -- Volume to store the plugins
  let volumes := volumes ++ [{
    Name := GrafanaPluginsVolumeName,
    VolumeSource := { VolumeSource.zero with EmptyDir := some EmptyDirVolumeSource.zero } }]
  -- Extra volumes for secrets
  let volumes := cr.Spec.Secrets.foldl (fun volumes secret =>
    let volumeName := "secret-" ++ secret
    volumes ++ [{
      Name := volumeName,
      VolumeSource := { VolumeSource.zero with
        Secret := some { SecretName := secret, Optional := some volumeOptional } } }]) volumes
  -- Extra volumes for config maps
  let volumes := cr.Spec.ConfigMaps.foldl (fun volumes configmap =>
    let volumeName := "secret-" ++ configmap
    volumes ++ [{
      Name := volumeName,
      VolumeSource := { VolumeSource.zero with
        ConfigMap := some {
          LocalObjectReference := { Name := configmap },
          Optional := none } } }]) volumes
  volumes

def getVolumeMounts (config : Config) (cr : Grafana) : List VolumeMount :=
  let mounts : List VolumeMount := []
  let mounts := mounts ++ [{
    Name := GrafanaConfigName, ReadOnly := false, MountPath := "/etc/grafana/" }]
  let mounts := mounts ++ [{
    Name := GrafanaDataVolumeName, ReadOnly := false, MountPath := "/var/lib/grafana" }]
  let mounts := mounts ++ [{
    Name := GrafanaPluginsVolumeName, ReadOnly := false, MountPath := "/var/lib/grafana/plugins" }]
  let mounts := mounts ++ [{
    Name := GrafanaLogsVolumeName, ReadOnly := false, MountPath := "/var/log/grafana" }]
  let mounts := cr.Spec.Secrets.foldl (fun mounts secret =>
    let mountName := "secret-" ++ secret
    mounts ++ [{
      Name := mountName, ReadOnly := false, MountPath := config.SecretsMountDir ++ secret }]) mounts
  let mounts := cr.Spec.ConfigMaps.foldl (fun mounts configmap =>
    let mountName := "configmap-" ++ configmap
    mounts ++ [{
      Name := mountName, ReadOnly := false,
      MountPath := config.ConfigMapsMountDir ++ configmap }]) mounts
  mounts

def getProbe (cr : Grafana) (delay timeout failure : Int) : Option Probe :=
  some {
    Handler := { HTTPGet := some { Path := GrafanaHealthEndpoint, Port := FromInt (GetGrafanaPort cr) } },
    InitialDelaySeconds := delay,
    TimeoutSeconds := timeout,
    PeriodSeconds := 0,
    SuccessThreshold := 0,
    FailureThreshold := failure }

def getContainers (config : Config) (cr : Grafana) (configHash : String) : List Container :=
  let containers : List Container := []
  let cfg := config.GetControllerConfig
  let image := cfg.GetConfigString config.ConfigGrafanaImage config.GrafanaImage
  let tag := cfg.GetConfigString config.ConfigGrafanaImageTag config.GrafanaVersion
  let containers := containers ++ [{
    Name := "grafana",
    Image := image ++ ":" ++ tag,
    Command := [],
    Args := ["-config=/etc/grafana/grafana.ini"],
    WorkingDir := "",
    Ports := [{
      Name := "grafana-http",
      ContainerPort := int32 (GetGrafanaPort cr),
      Protocol := "TCP" }],
    Env := [
      { Name := LastConfigEnvVar, Value := configHash, ValueFrom := none },
      { Name := GrafanaAdminUserEnvVar,
        Value := "",
        ValueFrom := some { SecretKeyRef := some {
          LocalObjectReference := { Name := GrafanaAdminSecretName },
          Key := GrafanaAdminUserEnvVar } } },
      { Name := GrafanaAdminPasswordEnvVar,
        Value := "",
        ValueFrom := some { SecretKeyRef := some {
          LocalObjectReference := { Name := GrafanaAdminSecretName },
          Key := GrafanaAdminPasswordEnvVar } } }],
    Resources := getResources cr,
    VolumeMounts := getVolumeMounts config cr,
    LivenessProbe := getProbe cr 60 30 10,
    ReadinessProbe := getProbe cr 5 3 1,
    TerminationMessagePath := "/dev/termination-log",
    TerminationMessagePolicy := "File",
    ImagePullPolicy := "IfNotPresent" }]
  -- Add extra containers
  let containers := cr.Spec.Containers.foldl (fun containers container =>
    let container := { container with VolumeMounts := getVolumeMounts config cr }
    containers ++ [container]) containers
  containers

def getInitContainers (config : Config) (plugins : String) : List Container :=
  let cfg := config.GetControllerConfig
  let image := cfg.GetConfigString config.ConfigPluginsInitContainerImage
    config.PluginsInitContainerImage
  let tag := cfg.GetConfigString config.ConfigPluginsInitContainerTag
    config.PluginsInitContainerTag
  [{ Container.zero with
    Name := GrafanaInitContainerName,
    Image := image ++ ":" ++ tag,
    Env := [{ Name := "GRAFANA_PLUGINS", Value := plugins, ValueFrom := none }],
    Resources := ResourceRequirements.zero,
    VolumeMounts := [{
      Name := GrafanaPluginsVolumeName,
      ReadOnly := false,
      MountPath := "/opt/plugins" }],
    TerminationMessagePath := "/dev/termination-log",
    TerminationMessagePolicy := "File",
    ImagePullPolicy := "IfNotPresent" }]

/-- Returns the specification and the Instance as the call leaves it. The fields of the literal
are evaluated in the order they are written, so the label write comes before the annotation
writes, and the volumes and containers are read from the Instance after both. -/
def getDeploymentSpec (config : Config) (cr : Grafana) (configHash plugins : String) :
    DeploymentSpec × Grafana :=
  let replicas := getReplicas cr
  let (labels, cr) := getPodLabels cr
  let (annotations, cr) := getPodAnnotations cr
  let volumes := getVolumes cr
  let initContainers := getInitContainers config plugins
  let containers := getContainers config cr configHash
  ({ Replicas := replicas,
     Selector := some { MatchLabels := some ((∅ : StrMap).insert "app" GrafanaPodLabel) },
     Template := {
       ObjectMeta := { ObjectMeta.zero with
         Name := GrafanaDeploymentName,
         Labels := some labels,
         Annotations := some annotations },
       Spec := {
         Volumes := volumes,
         InitContainers := initContainers,
         Containers := containers,
         ServiceAccountName := GrafanaServiceAccountName } },
     Strategy := {
       Type_ := "RollingUpdate",
       RollingUpdate := getRollingUpdateStrategy } }, cr)

/-- Returns the new object and the Instance as the call leaves it. -/
def GrafanaDeployment (config : Config) (cr : Grafana) (configHash : String) :
    Deployment × Grafana :=
  let namespace_ := cr.Namespace
  let (spec, cr) := getDeploymentSpec config cr configHash ""
  ({ TypeMeta := TypeMeta.zero,
     ObjectMeta := { ObjectMeta.zero with
       Name := GrafanaDeploymentName,
       Namespace := namespace_ },
     Spec := spec,
     Status := DeploymentStatus.zero }, cr)

def GrafanaDeploymentSelector (cr : Grafana) : ObjectKey :=
  { Namespace := cr.Namespace,
    Name := GrafanaDeploymentName }

/-- The method `DeepCopy` of `v1.Deployment`: a copy that shares nothing with its argument. -/
def Deployment.DeepCopy (d : Deployment) : Deployment := d

/-- Returns the reconciled object and the Instance as the call leaves it. -/
def GrafanaDeploymentReconciled (config : Config) (cr : Grafana) (currentState : Deployment)
    (configHash plugins : String) : Deployment × Grafana :=
  let reconciled := currentState.DeepCopy
  let (spec, cr) := getDeploymentSpec config cr configHash plugins
  ({ reconciled with Spec := spec }, cr)

/-- Overwrites the `Value` of the variable named `LAST_CONFIG` in the first container of a
specification, and nothing else. -/
def DeploymentSpec.withLastConfig (spec : DeploymentSpec) (value : String) : DeploymentSpec :=
  { spec with Template := { spec.Template with Spec := { spec.Template.Spec with
      Containers :=
        match spec.Template.Spec.Containers with
        | [] => []
        | primary :: extra =>
          { primary with Env := primary.Env.map fun env =>
              if env.Name = LastConfigEnvVar then { env with Value := value } else env } ::
            extra } } }

/-- Overwrites the `Value` of the variable named `GRAFANA_PLUGINS` in the first init container
of a specification, and nothing else. -/
def DeploymentSpec.withPlugins (spec : DeploymentSpec) (value : String) : DeploymentSpec :=
  { spec with Template := { spec.Template with Spec := { spec.Template.Spec with
      InitContainers :=
        match spec.Template.Spec.InitContainers with
        | [] => []
        | init :: others =>
          { init with Env := init.Env.map fun env =>
              if env.Name = "GRAFANA_PLUGINS" then { env with Value := value } else env } ::
            others } } }

/-! ## Sample inputs -/

/-- A configuration with an empty store, so that every lookup falls back. -/
def sampleConfig : Config :=
  { ConfigGrafanaImage := "grafana.image.url",
    ConfigGrafanaImageTag := "grafana.image.tag",
    ConfigPluginsInitContainerImage := "grafana.plugins.init.container.image.url",
    ConfigPluginsInitContainerTag := "grafana.plugins.init.container.image.tag",
    GrafanaImage := "grafana/grafana",
    GrafanaVersion := "6.2.5",
    PluginsInitContainerImage := "grafana/plugins-init",
    PluginsInitContainerTag := "0.0.2",
    SecretsMountDir := "/etc/grafana-secrets/",
    ConfigMapsMountDir := "/etc/grafana-configmaps/",
    GetControllerConfig := { Values := ∅ } }

/-- An Instance with nothing set. -/
def bareInstance : Grafana :=
  { Name := "example", Namespace := "monitoring",
    Spec := { Config := { HttpPort := none }, Containers := [], Secrets := [], ConfigMaps := [],
              Deployment := none, Resources := none } }

/-- The Instance of the parity property: secrets `s1`, `s2` and config map `c1`. -/
def parityInstance : Grafana :=
  { bareInstance with Spec := { bareInstance.Spec with
      Secrets := ["s1", "s2"], ConfigMaps := ["c1"] } }

/-- An Instance whose overlay carries an empty, non-nil label map and a non-nil annotation map. -/
def overlayInstance : Grafana :=
  { bareInstance with Spec := { bareInstance.Spec with
      Deployment := some {
        Annotations := some ((∅ : StrMap).insert "team" "observability"),
        Labels := some ∅,
        Replicas := 3 } } }

/-- An Instance with a secret and a config map that carry the same reference name. -/
def sharedNameInstance : Grafana :=
  { bareInstance with Spec := { bareInstance.Spec with
      Secrets := ["shared"], ConfigMaps := ["shared"] } }

/-! ## Lemmas on the loops and on the writes into the Instance -/

theorem foldl_append_singleton {α β : Type} (f : α → β) (xs : List α) (init : List β) :
    xs.foldl (fun acc x => acc ++ [f x]) init = init ++ xs.map f := by
  induction xs generalizing init with
  | nil => simp
  | cons x xs ih => simp [ih]

/-- The Instance as `getPodLabels` followed by `getPodAnnotations` leaves it. -/
theorem getPodAnnotations_getPodLabels_snd (cr : Grafana) :
    (getPodAnnotations (getPodLabels cr).2).2 =
      { cr with Spec := { cr.Spec with Deployment := cr.Spec.Deployment.map fun deployment =>
          { deployment with
            Labels := deployment.Labels.map fun m => m.insert "app" GrafanaPodLabel,
            Annotations := deployment.Annotations.map fun m =>
              (m.insert "prometheus.io/scrape" "true").insert "prometheus.io/port"
                (toString (GetGrafanaPort cr)) } } } := by
  rcases cr with ⟨name, ns, ⟨cfg, cs, ss, cms, dep, res⟩⟩
  cases dep with
  | none => rfl
  | some d =>
    rcases d with ⟨a, l, r⟩
    cases a <;> cases l <;> rfl

/-- Writing the same two keys a second time changes nothing. -/
theorem insert_pair_idem (m : StrMap) (k₁ v₁ k₂ v₂ : String) :
    (((m.insert k₁ v₁).insert k₂ v₂).insert k₁ v₁).insert k₂ v₂ =
      (m.insert k₁ v₁).insert k₂ v₂ := by
  apply Finmap.ext_lookup
  intro x
  by_cases h2 : x = k₂
  · subst h2
    simp
  · by_cases h1 : x = k₁
    · subst h1
      simp [Finmap.lookup_insert_of_ne _ h2]
    · simp [Finmap.lookup_insert_of_ne _ h2, Finmap.lookup_insert_of_ne _ h1]

/-- The label map of the pod template sends `app` to `grafana`. -/
theorem getPodLabels_lookup_app (cr : Grafana) :
    (getPodLabels cr).1.lookup "app" = some "grafana" := by
  unfold getPodLabels
  cases cr.overlayLabels <;> simp [GrafanaPodLabel]

/-- The volume list without the loops: the four fixed volumes, then one volume per secret, then
one volume per config map. -/
theorem getVolumes_eq (cr : Grafana) :
    getVolumes cr =
      [{ Name := GrafanaConfigName,
         VolumeSource := { VolumeSource.zero with
           ConfigMap := some {
             LocalObjectReference := { Name := GrafanaConfigName }, Optional := none } } },
       { Name := GrafanaLogsVolumeName,
         VolumeSource := { VolumeSource.zero with EmptyDir := some EmptyDirVolumeSource.zero } },
       { Name := GrafanaDataVolumeName,
         VolumeSource := { VolumeSource.zero with EmptyDir := some EmptyDirVolumeSource.zero } },
       { Name := GrafanaPluginsVolumeName,
         VolumeSource := { VolumeSource.zero with EmptyDir := some EmptyDirVolumeSource.zero } }]
      ++ cr.Spec.Secrets.map (fun secret =>
          { Name := "secret-" ++ secret,
            VolumeSource := { VolumeSource.zero with
              Secret := some { SecretName := secret, Optional := some true } } })
      ++ cr.Spec.ConfigMaps.map (fun configmap =>
          { Name := "secret-" ++ configmap,
            VolumeSource := { VolumeSource.zero with
              ConfigMap := some {
                LocalObjectReference := { Name := configmap }, Optional := none } } }) := by
  unfold getVolumes
  simp only [foldl_append_singleton, List.nil_append, List.singleton_append, List.cons_append]

/-! ## Mount and volume names -/

/-- C1, evaluated on the Instance with secrets `s1`, `s2` and config map `c1`: both lists have
seven entries, but the volume made for the config map is called `secret-c1` while its mount is
called `configmap-c1`, so that mount names no volume and that volume is named by no mount. -/
theorem getVolumes_getVolumeMounts_names_at_parityInstance :
    (getVolumes parityInstance).map (fun v => v.Name) =
        ["grafana-config", "grafana-logs", "grafana-data", "grafana-plugins",
         "secret-s1", "secret-s2", "secret-c1"] ∧
      (getVolumeMounts sampleConfig parityInstance).map (fun m => m.Name) =
        ["grafana-config", "grafana-data", "grafana-plugins", "grafana-logs",
         "secret-s1", "secret-s2", "configmap-c1"] ∧
      (getVolumes parityInstance).length = 7 ∧
      (getVolumeMounts sampleConfig parityInstance).length = 7 ∧
      "configmap-c1" ∉ (getVolumes parityInstance).map (fun v => v.Name) ∧
      "secret-c1" ∉ (getVolumeMounts sampleConfig parityInstance).map (fun m => m.Name) := by
  decide

/-! ## Reconciliation -/

/-- C2: the reconciled object is the observed object with the `Spec` field replaced; its object
metadata, type metadata and status are those of the observed object. -/
theorem GrafanaDeploymentReconciled_preserves_identity (config : Config) (cr : Grafana)
    (currentState : Deployment) (configHash plugins : String) :
    (GrafanaDeploymentReconciled config cr currentState configHash plugins).1 =
        { currentState with
          Spec := (GrafanaDeploymentReconciled config cr currentState configHash plugins).1.Spec } ∧
      (GrafanaDeploymentReconciled config cr currentState configHash plugins).1.ObjectMeta =
        currentState.ObjectMeta ∧
      (GrafanaDeploymentReconciled config cr currentState configHash plugins).1.TypeMeta =
        currentState.TypeMeta ∧
      (GrafanaDeploymentReconciled config cr currentState configHash plugins).1.Status =
        currentState.Status :=
  ⟨rfl, rfl, rfl, rfl⟩

/-- C3: the `Spec` of the reconciled object is the freshly computed specification, whatever the
observed object was: two observed objects give results with the same `Spec`. -/
theorem GrafanaDeploymentReconciled_replaces_spec (config : Config) (cr : Grafana)
    (configHash plugins : String) :
    (∀ currentState : Deployment,
        (GrafanaDeploymentReconciled config cr currentState configHash plugins).1.Spec =
          (getDeploymentSpec config cr configHash plugins).1) ∧
      ∀ observed₁ observed₂ : Deployment,
        (GrafanaDeploymentReconciled config cr observed₁ configHash plugins).1.Spec =
          (GrafanaDeploymentReconciled config cr observed₂ configHash plugins).1.Spec :=
  ⟨fun _ => rfl, fun _ _ => rfl⟩

/-! ## Replicas and resources -/

/-- C6: the replica count is the overlay value when the overlay is present with a value above
zero, and 1 otherwise; it is never below 1. The values 0 and -5 and an absent overlay give 1, the
value 3 gives 3. -/
theorem getReplicas_clamp (cr : Grafana) (overlay : v1alpha1.GrafanaDeployment) :
    getReplicas cr = some
        (match cr.Spec.Deployment with
         | some deployment => if 0 < deployment.Replicas then deployment.Replicas else 1
         | none => 1) ∧
      (∃ n, getReplicas cr = some n ∧ 1 ≤ n) ∧
      getReplicas { cr with Spec := { cr.Spec with Deployment := none } } = some 1 ∧
      getReplicas { cr with Spec := { cr.Spec with
        Deployment := some { overlay with Replicas := 0 } } } = some 1 ∧
      getReplicas { cr with Spec := { cr.Spec with
        Deployment := some { overlay with Replicas := -5 } } } = some 1 ∧
      getReplicas { cr with Spec := { cr.Spec with
        Deployment := some { overlay with Replicas := 3 } } } = some 3 := by
  have key : getReplicas cr = some
      (match cr.Spec.Deployment with
       | some deployment => if 0 < deployment.Replicas then deployment.Replicas else 1
       | none => 1) := by
    unfold getReplicas
    cases h : cr.Spec.Deployment with
    | none => rfl
    | some d =>
      by_cases hd : d.Replicas ≤ 0
      · have : ¬ 0 < d.Replicas := by omega
        simp [hd, this]
      · have : 0 < d.Replicas := by omega
        simp [hd, this]
  refine ⟨key, ?_, rfl, rfl, rfl, rfl⟩
  rw [key]
  cases cr.Spec.Deployment with
  | none => exact ⟨1, rfl, le_refl _⟩
  | some d =>
    by_cases hd : 0 < d.Replicas
    · exact ⟨d.Replicas, by simp [hd], by omega⟩
    · exact ⟨1, by simp [hd], le_refl _⟩

/-- C7: without an override the resources are requests of 256Mi memory and 100m cpu and limits of
1024Mi memory and 500m cpu, and nothing else; with an override they are the override itself. -/
theorem getResources_default_or_override (cr : Grafana) (override : ResourceRequirements) :
    getResources { cr with Spec := { cr.Spec with Resources := none } } =
        { Requests := some (((∅ : ResourceList).insert "memory" ⟨"256Mi"⟩).insert "cpu" ⟨"100m"⟩),
          Limits := some (((∅ : ResourceList).insert "memory" ⟨"1024Mi"⟩).insert "cpu" ⟨"500m"⟩) } ∧
      getResources { cr with Spec := { cr.Spec with Resources := some override } } = override ∧
      getResources cr =
        (match cr.Spec.Resources with
         | some resources => resources
         | none =>
           { Requests := some
               (((∅ : ResourceList).insert "memory" ⟨"256Mi"⟩).insert "cpu" ⟨"100m"⟩),
             Limits := some
               (((∅ : ResourceList).insert "memory" ⟨"1024Mi"⟩).insert "cpu" ⟨"500m"⟩) }) :=
  ⟨rfl, rfl, rfl⟩

/-! ## What the synthesis writes into the Instance -/

/-- C4 as stated fails: on an Instance whose overlay carries an empty, non-nil label map, the
Instance that `getDeploymentSpec` leaves is not the Instance it was given; the label map now
sends `app` to `grafana`. -/
theorem getDeploymentSpec_writes_overlayInstance :
    ¬ ((getDeploymentSpec sampleConfig overlayInstance "fingerprint" "").2 = overlayInstance) ∧
      overlayInstance.overlayLabels = some ∅ ∧
      (getDeploymentSpec sampleConfig overlayInstance "fingerprint" "").2.overlayLabels =
        some ((∅ : StrMap).insert "app" "grafana") := by
  decide

/-- C4, amended: the three entry points leave the same Instance, which is the given Instance
with the fixed keys written into the overlay maps that are not nil: `app` into the label map, the
two scrape keys into the annotation map. Every other key of those maps and every other field is
as before, and an Instance without overlay maps is left as it was. -/
theorem getDeploymentSpec_instance_frame (config : Config) (cr : Grafana)
    (currentState : Deployment) (configHash plugins : String) :
    (getDeploymentSpec config cr configHash plugins).2 =
        { cr with Spec := { cr.Spec with Deployment := cr.Spec.Deployment.map fun deployment =>
            { deployment with
              Labels := deployment.Labels.map fun m => m.insert "app" "grafana",
              Annotations := deployment.Annotations.map fun m =>
                (m.insert "prometheus.io/scrape" "true").insert "prometheus.io/port"
                  (toString (GetGrafanaPort cr)) } } } ∧
      (GrafanaDeployment config cr configHash).2 =
        (getDeploymentSpec config cr configHash "").2 ∧
      (GrafanaDeploymentReconciled config cr currentState configHash plugins).2 =
        (getDeploymentSpec config cr configHash plugins).2 :=
  ⟨getPodAnnotations_getPodLabels_snd cr, rfl, rfl⟩

/-! ## Repeated runs -/

/-- C5: a second run of the synthesis, on the Instance exactly as the first run left it, gives the
specification the first run gave, and leaves that Instance as it found it (so the maps the first
specification shares with the Instance are not changed by the second run either). -/
theorem getDeploymentSpec_repeatable (config : Config) (cr : Grafana)
    (configHash plugins : String) :
    (getDeploymentSpec config (getDeploymentSpec config cr configHash plugins).2
          configHash plugins).1 =
        (getDeploymentSpec config cr configHash plugins).1 ∧
      (getDeploymentSpec config (getDeploymentSpec config cr configHash plugins).2
          configHash plugins).2 =
        (getDeploymentSpec config cr configHash plugins).2 := by
  rcases cr with ⟨name, ns, ⟨cfg, cs, ss, cms, dep, res⟩⟩
  cases dep with
  | none => exact ⟨rfl, rfl⟩
  | some d =>
    rcases d with ⟨a, l, r⟩
    cases a <;> cases l <;>
      simp [getDeploymentSpec, getPodLabels, getPodAnnotations, Grafana.overlayLabels,
        Grafana.overlayAnnotations, Grafana.setLabel, Grafana.setAnnotation, getReplicas,
        getVolumes, getContainers, getResources, getProbe, GetGrafanaPort, getVolumeMounts,
        insert_pair_idem]

/-! ## Selector and labels -/

/-- C8: the pod-template labels send `app` to `grafana`, the selector's match-labels are exactly
the one pair `app`, `grafana`, and the selector matches the pod-template labels. -/
theorem getDeploymentSpec_selector_matches_labels (config : Config) (cr : Grafana)
    (configHash plugins : String) :
    ∃ labels sel,
      (getDeploymentSpec config cr configHash plugins).1.Template.ObjectMeta.Labels =
          some labels ∧
        labels.lookup "app" = some "grafana" ∧
        (getDeploymentSpec config cr configHash plugins).1.Selector = some sel ∧
        sel.MatchLabels = some (Finmap.singleton "app" "grafana") ∧
        sel.Matches labels := by
  refine ⟨(getPodLabels cr).1, { MatchLabels := some ((∅ : StrMap).insert "app" GrafanaPodLabel) },
    rfl, getPodLabels_lookup_app cr, rfl, by decide, ?_⟩
  intro k hk
  have hk' : k = "app" := by
    have hmem : k ∈ ((∅ : StrMap).insert "app" GrafanaPodLabel) := Finmap.mem_keys.mp hk
    rw [Finmap.mem_insert] at hmem
    rcases hmem with h | h
    · exact h
    · exact absurd h Finmap.not_mem_empty
  subst hk'
  rw [getPodLabels_lookup_app]
  decide

/-! ## The fingerprint -/

/-- C9: two specifications built from the same Instance and plugin list with fingerprints `h₁`
and `h₂` become equal once the `LAST_CONFIG` value of the primary container of the first is
overwritten with `h₂`; that value is `h₁` in the first and `h₂` in the second. The init
containers, the extra containers, the labels, the annotations and the volumes are the same, and
so is the Instance that the two runs leave. -/
theorem getDeploymentSpec_fingerprint_frame (config : Config) (cr : Grafana)
    (h₁ h₂ plugins : String) :
    (getDeploymentSpec config cr h₁ plugins).1.withLastConfig h₂ =
        (getDeploymentSpec config cr h₂ plugins).1 ∧
      ((getDeploymentSpec config cr h₁ plugins).1.Template.Spec.Containers.head?.bind
          fun primary => primary.Env.head?) =
        some { Name := "LAST_CONFIG", Value := h₁, ValueFrom := none } ∧
      ((getDeploymentSpec config cr h₂ plugins).1.Template.Spec.Containers.head?.bind
          fun primary => primary.Env.head?) =
        some { Name := "LAST_CONFIG", Value := h₂, ValueFrom := none } ∧
      (getDeploymentSpec config cr h₁ plugins).1.Template.Spec.Containers.tail =
        (getDeploymentSpec config cr h₂ plugins).1.Template.Spec.Containers.tail ∧
      (getDeploymentSpec config cr h₁ plugins).1.Template.Spec.InitContainers =
        (getDeploymentSpec config cr h₂ plugins).1.Template.Spec.InitContainers ∧
      (getDeploymentSpec config cr h₁ plugins).1.Template.Spec.Volumes =
        (getDeploymentSpec config cr h₂ plugins).1.Template.Spec.Volumes ∧
      (getDeploymentSpec config cr h₁ plugins).1.Template.ObjectMeta =
        (getDeploymentSpec config cr h₂ plugins).1.Template.ObjectMeta ∧
      (getDeploymentSpec config cr h₁ plugins).2 = (getDeploymentSpec config cr h₂ plugins).2 := by
  refine ⟨?_, ?_, ?_, ?_, rfl, rfl, rfl, rfl⟩
  · simp [getDeploymentSpec, DeploymentSpec.withLastConfig, getContainers, foldl_append_singleton,
      LastConfigEnvVar, GrafanaAdminUserEnvVar, GrafanaAdminPasswordEnvVar]
  · simp [getDeploymentSpec, getContainers, foldl_append_singleton, LastConfigEnvVar]
  · simp [getDeploymentSpec, getContainers, foldl_append_singleton, LastConfigEnvVar]
  · simp [getDeploymentSpec, getContainers, foldl_append_singleton]

/-! ## Extra containers -/

/-- C10: the container list is the primary container followed by the declared extra containers in
their order, each with its `VolumeMounts` replaced by the standard mount list and every other
field as declared; the primary container carries that same mount list. -/
theorem getContainers_extra_containers (config : Config) (cr : Grafana) (configHash : String) :
    ∃ primary : Container,
      getContainers config cr configHash =
          primary :: cr.Spec.Containers.map
            (fun declared => { declared with VolumeMounts := getVolumeMounts config cr }) ∧
        primary.Name = "grafana" ∧
        primary.VolumeMounts = getVolumeMounts config cr := by
  unfold getContainers
  simp only [foldl_append_singleton, List.nil_append, List.singleton_append]
  exact ⟨_, rfl, rfl, rfl⟩

/-! ## Rollout strategy -/

/-- C11 as stated fails: on the bare Instance the two bounds of the rolling update are not the
percentage `25%`; each is an integer value, built by `intstr.FromInt`. -/
theorem getDeploymentSpec_strategy_not_percent :
    ¬ ((getDeploymentSpec sampleConfig bareInstance "fingerprint" "").1.Strategy.RollingUpdate =
        some { MaxUnavailable := some (FromString "25%"), MaxSurge := some (FromString "25%") }) ∧
      ((getDeploymentSpec sampleConfig bareInstance "fingerprint" "").1.Strategy.RollingUpdate.bind
          fun r => r.MaxUnavailable.map fun v => (v.Type_, v.StrVal)) =
        some (IntOrStringType.Int, "") ∧
      ((getDeploymentSpec sampleConfig bareInstance "fingerprint" "").1.Strategy.RollingUpdate.bind
          fun r => r.MaxSurge.map fun v => (v.Type_, v.StrVal)) =
        some (IntOrStringType.Int, "") := by
  decide

/-- C11, amended: for every Instance the rollout strategy is of type `RollingUpdate` with
max-unavailable and max-surge both the integer 25, of integer kind and with no string part; no
argument of the synthesis changes it. -/
theorem getDeploymentSpec_strategy (config : Config) (cr : Grafana)
    (configHash plugins : String) :
    (getDeploymentSpec config cr configHash plugins).1.Strategy =
      { Type_ := "RollingUpdate",
        RollingUpdate := some {
          MaxUnavailable := some { Type_ := IntOrStringType.Int, IntVal := 25, StrVal := "" },
          MaxSurge := some { Type_ := IntOrStringType.Int, IntVal := 25, StrVal := "" } } } := by
  have h25 : int32 25 = 25 := by decide
  simp [getDeploymentSpec, getRollingUpdateStrategy, FromInt, h25]

/-! ## Optional volumes -/

/-- C12, evaluated on the Instance with secrets `s1`, `s2` and config map `c1`: the two secret
volumes carry `Optional = true`, the config-map volume made for `c1` carries no `Optional` at
all. -/
theorem getVolumes_optional_at_parityInstance :
    (getVolumes parityInstance).filterMap
        (fun v => v.VolumeSource.Secret.map fun src => (src.SecretName, src.Optional)) =
        [("s1", some true), ("s2", some true)] ∧
      ((getVolumes parityInstance).drop 4).filterMap
        (fun v => v.VolumeSource.ConfigMap.map
          fun src => (src.LocalObjectReference.Name, src.Optional)) =
        [("c1", none)] := by
  decide

/-! ## Pod labels and annotations -/

/-- C13: the label map sends `app` to `grafana` and every other key to what the overlay labels
send it to; the annotation map sends `prometheus.io/scrape` to `true`, `prometheus.io/port` to the
decimal service port, and every other key to what the overlay annotations send it to. Without an
overlay the two maps hold the fixed keys and nothing else. -/
theorem getPodLabels_getPodAnnotations_lookup (cr : Grafana) :
    (∀ k : String, (getPodLabels cr).1.lookup k =
        if k = "app" then some "grafana" else (cr.overlayLabels.getD ∅).lookup k) ∧
      (∀ k : String, (getPodAnnotations cr).1.lookup k =
        if k = "prometheus.io/port" then some (toString (GetGrafanaPort cr))
        else if k = "prometheus.io/scrape" then some "true"
        else (cr.overlayAnnotations.getD ∅).lookup k) ∧
      (getPodLabels { cr with Spec := { cr.Spec with Deployment := none } }).1 =
        Finmap.singleton "app" "grafana" ∧
      (getPodAnnotations { cr with Spec := { cr.Spec with Deployment := none } }).1 =
        (Finmap.singleton "prometheus.io/scrape" "true").insert "prometheus.io/port"
          (toString (GetGrafanaPort cr)) := by
  refine ⟨?_, ?_, rfl, rfl⟩
  · intro k
    unfold getPodLabels
    by_cases hk : k = "app"
    · subst hk
      cases cr.overlayLabels <;> simp [GrafanaPodLabel]
    · cases cr.overlayLabels <;> simp [hk, Finmap.lookup_insert_of_ne]
  · intro k
    have hport : ∀ key value : String,
        GetGrafanaPort (cr.setAnnotation key value) = GetGrafanaPort cr := fun _ _ => rfl
    unfold getPodAnnotations
    by_cases hp : k = "prometheus.io/port"
    · subst hp
      cases cr.overlayAnnotations <;> simp [hport]
    · by_cases hs : k = "prometheus.io/scrape"
      · subst hs
        cases cr.overlayAnnotations <;> simp [Finmap.lookup_insert_of_ne]
      · cases cr.overlayAnnotations <;> simp [hp, hs, Finmap.lookup_insert_of_ne]

/-! ## The primary container: environment and probes -/

/-- C14: the primary container has three environment variables, in this order: `LAST_CONFIG`
with the fingerprint as plain value and no reference; `GF_SECURITY_ADMIN_USER` and
`GF_SECURITY_ADMIN_PASSWORD`, each with an empty plain value and a reference to the key of its
own name in the secret `admin-credentials`. This holds for every Instance and fingerprint, so no
input puts a credential into a plain value. -/
theorem getContainers_primary_env (config : Config) (cr : Grafana) (configHash : String) :
    ∃ primary : Container,
      (getContainers config cr configHash).head? = some primary ∧
        primary.Env =
          [{ Name := "LAST_CONFIG", Value := configHash, ValueFrom := none },
           { Name := "GF_SECURITY_ADMIN_USER", Value := "",
             ValueFrom := some { SecretKeyRef := some {
               LocalObjectReference := { Name := "admin-credentials" },
               Key := "GF_SECURITY_ADMIN_USER" } } },
           { Name := "GF_SECURITY_ADMIN_PASSWORD", Value := "",
             ValueFrom := some { SecretKeyRef := some {
               LocalObjectReference := { Name := "admin-credentials" },
               Key := "GF_SECURITY_ADMIN_PASSWORD" } } }] := by
  unfold getContainers
  simp only [foldl_append_singleton, List.nil_append, List.singleton_append, List.head?_cons]
  exact ⟨_, rfl, rfl⟩

/-- C15: the liveness probe of the primary container is an HTTP GET on `/api/health` at the
service port (as `intstr.FromInt` stores it) with initial delay 60, timeout 30 and failure
threshold 10; the readiness probe is the same probe with these three set to 5, 3 and 1; the
liveness delay and threshold are the greater ones. -/
theorem getContainers_primary_probes (config : Config) (cr : Grafana) (configHash : String) :
    ∃ (primary : Container) (liveness readiness : Probe),
      (getContainers config cr configHash).head? = some primary ∧
        primary.LivenessProbe = some liveness ∧
        primary.ReadinessProbe = some readiness ∧
        liveness =
          { Handler := { HTTPGet := some {
              Path := "/api/health",
              Port := { Type_ := IntOrStringType.Int, IntVal := int32 (GetGrafanaPort cr),
                        StrVal := "" } } },
            InitialDelaySeconds := 60, TimeoutSeconds := 30, PeriodSeconds := 0,
            SuccessThreshold := 0, FailureThreshold := 10 } ∧
        readiness =
          { liveness with InitialDelaySeconds := 5, TimeoutSeconds := 3, FailureThreshold := 1 } ∧
        readiness.InitialDelaySeconds < liveness.InitialDelaySeconds ∧
        readiness.FailureThreshold < liveness.FailureThreshold := by
  unfold getContainers
  simp only [foldl_append_singleton, List.nil_append, List.singleton_append, List.head?_cons]
  refine ⟨_, _, _, rfl, rfl, rfl, rfl, rfl, ?_, ?_⟩
  · show (5 : Int) < 60
    decide
  · show (1 : Int) < 10
    decide

/-! ## The init container -/

/-- C16: for every plugin list there is one init container, named `grafana-plugins-init`, with
the one environment variable `GRAFANA_PLUGINS` holding the plugin list, the one volume mount of
the plugin cache volume `grafana-plugins`, and neither resource requests nor limits. -/
theorem getInitContainers_single (config : Config) (plugins : String) :
    ∃ init : Container,
      getInitContainers config plugins = [init] ∧
        init.Name = "grafana-plugins-init" ∧
        init.Env = [{ Name := "GRAFANA_PLUGINS", Value := plugins, ValueFrom := none }] ∧
        init.VolumeMounts =
          [{ Name := "grafana-plugins", ReadOnly := false, MountPath := "/opt/plugins" }] ∧
        init.Resources = { Limits := none, Requests := none } ∧
        (getInitContainers config "").map (fun c => c.Env.map fun env => env.Value) = [[""]] :=
  ⟨_, rfl, rfl, rfl, rfl, rfl, rfl⟩

/-! ## The volume list -/

/-- C17: the volume list has 4 + |S| + |C| entries. Its first four are the config volume (backed
by the config map `grafana-config`), the logs volume, the data volume and the plugin cache volume
(the last three empty-dir). Then comes one secret volume per entry of the secret list, in its
order, each referencing its secret; then one config-map volume per entry of the config-map list,
in its order, each referencing its config map. -/
theorem getVolumes_layout (cr : Grafana) :
    (getVolumes cr).length = 4 + cr.Spec.Secrets.length + cr.Spec.ConfigMaps.length ∧
      (getVolumes cr).take 4 =
        [{ Name := "grafana-config",
           VolumeSource := {
             EmptyDir := none, Secret := none,
             ConfigMap := some {
               LocalObjectReference := { Name := "grafana-config" }, Optional := none } } },
         { Name := "grafana-logs",
           VolumeSource := { EmptyDir := some { Medium := "" }, Secret := none, ConfigMap := none } },
         { Name := "grafana-data",
           VolumeSource := { EmptyDir := some { Medium := "" }, Secret := none, ConfigMap := none } },
         { Name := "grafana-plugins",
           VolumeSource := { EmptyDir := some { Medium := "" }, Secret := none, ConfigMap := none } }] ∧
      (((getVolumes cr).drop 4).take cr.Spec.Secrets.length).map (fun v => v.VolumeSource) =
        cr.Spec.Secrets.map (fun secret =>
          { EmptyDir := none,
            Secret := some { SecretName := secret, Optional := some true },
            ConfigMap := none }) ∧
      ((getVolumes cr).drop (4 + cr.Spec.Secrets.length)).map (fun v => v.VolumeSource) =
        cr.Spec.ConfigMaps.map (fun configmap =>
          { EmptyDir := none,
            Secret := none,
            ConfigMap := some {
              LocalObjectReference := { Name := configmap }, Optional := none } }) := by
  rw [getVolumes_eq]
  refine ⟨?_, ?_, ?_, ?_⟩
  · simp
    omega
  · simp [GrafanaConfigName, GrafanaLogsVolumeName, GrafanaDataVolumeName,
      GrafanaPluginsVolumeName, VolumeSource.zero, EmptyDirVolumeSource.zero]
  · simp [VolumeSource.zero, List.take_append, Function.comp_def]
  · rw [List.drop_left' (by simp; omega)]
    simp [VolumeSource.zero, Function.comp_def]

/-- C19, evaluated on an Instance with the secret `shared` and the config map `shared` (neither
list repeats a name): the two volumes made for them are both called `secret-shared`, so the
volume names are not pairwise distinct. -/
theorem getVolumes_names_at_sharedNameInstance :
    sharedNameInstance.Spec.Secrets.Nodup ∧
      sharedNameInstance.Spec.ConfigMaps.Nodup ∧
      (getVolumes sharedNameInstance).map (fun v => v.Name) =
        ["grafana-config", "grafana-logs", "grafana-data", "grafana-plugins",
         "secret-shared", "secret-shared"] ∧
      ¬ ((getVolumes sharedNameInstance).map (fun v => v.Name)).Nodup := by
  decide

/-! ## Creation and its lookup key -/

/-- C18: the created object is named `grafana-deployment` and lies in the namespace of the
Instance, and the lookup key of the Instance is the namespace and name of that object, before
and after the creation has run. -/
theorem GrafanaDeployment_identity (config : Config) (cr : Grafana) (configHash : String) :
    (GrafanaDeployment config cr configHash).1.ObjectMeta.Name = "grafana-deployment" ∧
      (GrafanaDeployment config cr configHash).1.ObjectMeta.Namespace = cr.Namespace ∧
      GrafanaDeploymentSelector cr =
        { Namespace := (GrafanaDeployment config cr configHash).1.ObjectMeta.Namespace,
          Name := (GrafanaDeployment config cr configHash).1.ObjectMeta.Name } ∧
      GrafanaDeploymentSelector (GrafanaDeployment config cr configHash).2 =
        GrafanaDeploymentSelector cr := by
  refine ⟨rfl, rfl, rfl, ?_⟩
  have h := getPodAnnotations_getPodLabels_snd cr
  show GrafanaDeploymentSelector (getPodAnnotations (getPodLabels cr).2).2 = _
  rw [h]
  rfl

/-- C20: creation builds the specification that reconciliation builds with the empty plugin
list, whatever the observed object; with a plugin list `plugins`, overwriting the value of
`GRAFANA_PLUGINS` in the init container of the created specification with `plugins` gives the
reconciled one. That value is empty in the one and `plugins` in the other. -/
theorem GrafanaDeployment_spec_eq_reconciled (config : Config) (cr : Grafana)
    (observed : Deployment) (configHash plugins : String) :
    (GrafanaDeployment config cr configHash).1.Spec =
        (GrafanaDeploymentReconciled config cr observed configHash "").1.Spec ∧
      (GrafanaDeployment config cr configHash).1.Spec.withPlugins plugins =
        (GrafanaDeploymentReconciled config cr observed configHash plugins).1.Spec ∧
      (GrafanaDeployment config cr configHash).1.Spec.Template.Spec.InitContainers.map
          (fun c => c.Env) =
        [[{ Name := "GRAFANA_PLUGINS", Value := "", ValueFrom := none }]] ∧
      (GrafanaDeploymentReconciled config cr observed configHash
          plugins).1.Spec.Template.Spec.InitContainers.map (fun c => c.Env) =
        [[{ Name := "GRAFANA_PLUGINS", Value := plugins, ValueFrom := none }]] := by
  refine ⟨rfl, ?_, rfl, rfl⟩
  simp [GrafanaDeployment, GrafanaDeploymentReconciled, Deployment.DeepCopy, getDeploymentSpec,
    DeploymentSpec.withPlugins, getInitContainers]

end Model
